import Mathlib

/-!
Verification of the report-rendering core of the clinical dashboard app
(single source file `app.py`): risk-flag normalization, risk-level
classification, null-safe stringification, and the assembly of the PDF
story and the on-screen preview from one flat data record.

Modelling conventions:
* A raw record field value is a scalar of heterogeneous Python type,
  embedded as the inductive `RawValue`.  Python floats are modelled as
  exact rationals, with the IEEE NaN kept as a separate constructor
  (`ℚ` has no NaN; `pd.isna` is true exactly on `None` and NaN).
* A `datetime.date` value is modelled by its year/month/day; its Python
  `str()` is the ISO `YYYY-MM-DD` rendering.
* The pandas `Series` row is modelled as an association list; `pyGet`
  models `Series.get(key, default)` (the default is returned when the
  key is absent; a stored null is returned as the value).
* `generate_pdf` is modelled up to its document content: the list of
  flowables appended to `story` (paragraph texts, style names, table
  cells), not the byte serialization performed by the reportlab
  backend.  The single ambient wall-clock read
  `datetime.now().strftime(...)` inside `generate_pdf` is made an
  explicit parameter `now`, already formatted.
* `render_report_preview` emits Streamlit blocks; the literal
  `st.markdown("### ...")` section-header call sites are modelled as
  `mdHeading` blocks, the other markdown call sites as `markdown`.
-/

/-- A scalar value of a raw record field, as delivered by the query
layer: Python `None`, float NaN, `bool`, `int`, `float` (as an exact
rational), `str`, or a `datetime.date`. -/
inductive RawValue where
  | vNone
  | vNaN
  | vBool (b : Bool)
  | vInt (n : ℤ)
  | vFloat (q : ℚ)
  | vStr (s : String)
  | vDate (y m d : ℕ)
deriving DecidableEq

/-- Model of the scalar `pd.isna`: true exactly for `None` and NaN. -/
def pd_isna : RawValue → Bool
  | .vNone => true
  | .vNaN => true
  | _ => false

/-- Digits of the exact decimal expansion of `num/den`, with fuel
(Python prints the shortest round-tripping decimal of a float; the
values exercised here have short exact expansions). -/
def fracDigits : ℕ → ℕ → ℕ → List ℕ
  | 0, _, _ => []
  | fuel + 1, num, den =>
    if num = 0 then [] else num * 10 / den :: fracDigits fuel (num * 10 % den) den

/-- Python `str()` of a float, on the rational model: sign, integer
part, decimal point, fractional digits (a single `0` when the value is
integral, as Python prints `2.0`). -/
def floatRepr (q : ℚ) : String :=
  let sign := if q < 0 then "-" else ""
  let n := q.num.natAbs
  let intPart := n / q.den
  let frac := fracDigits 64 (n % q.den) q.den
  let fracStr := if frac.isEmpty then "0" else String.join (frac.map (fun d => toString d))
  sign ++ toString intPart ++ "." ++ fracStr

/-- Zero-pad the decimal rendering of `n` to width `w`. -/
def padZero (w n : ℕ) : String :=
  let s := toString n
  if s.length < w then String.mk (List.replicate (w - s.length) '0') ++ s else s

/-- ISO rendering of a date, as Python `str(datetime.date(...))`
produces: `YYYY-MM-DD`, zero-padded. -/
def isoDate (y m d : ℕ) : String :=
  padZero 4 y ++ "-" ++ padZero 2 m ++ "-" ++ padZero 2 d

/-- Python `str(value)` on the embedded scalars. -/
def pyStr : RawValue → String
  | .vNone => "None"
  | .vNaN => "nan"
  | .vBool b => if b then "True" else "False"
  | .vInt n => toString n
  | .vFloat q => floatRepr q
  | .vStr s => s
  | .vDate y m d => isoDate y m d

/-- Model of Python `str.lower()` (ASCII case folding, which covers the
flag vocabulary). -/
def pyLower (s : String) : String :=
  String.mk (s.data.map Char.toLower)

/-- Model of Python `str.strip()`: drop leading and trailing
whitespace. -/
def pyStrip (s : String) : String :=
  String.mk (((s.data.dropWhile Char.isWhitespace).reverse.dropWhile Char.isWhitespace).reverse)

/-- `normalize_flag` from `app.py`: normalize a risk flag value to a
boolean.  Order of checks as in the source: `bool` first, then
`None`/NaN, then numeric (`bool(flag)`), then the string vocabulary
(stripped, lowered), with `False` as the final fallback. -/
def normalize_flag : RawValue → Bool
  | .vBool b => b
  | .vNone => false
  | .vNaN => false
  | .vInt n => n != 0
  | .vFloat q => q != 0
  | .vStr s =>
    let v := pyLower (pyStrip s)
    if ["true", "t", "1", "yes", "y"].contains v then true
    else if ["false", "f", "0", "no", "n", ""].contains v then false
    else false
  | .vDate _ _ _ => false

/-- `get_risk_level` from `app.py`: overall risk level from the three
individual risk flags (sum of the normalized booleans). -/
def get_risk_level (housing_risk impairment_risk mmh_risk : RawValue) : String :=
  let risk_count :=
    (normalize_flag housing_risk).toNat + (normalize_flag impairment_risk).toNat +
      (normalize_flag mmh_risk).toNat
  if risk_count ≥ 2 then "HIGH RISK"
  else if risk_count = 1 then "MODERATE RISK"
  else "LOW RISK"

/-- `safe_str` from `app.py`: `"Not available"` when
`pd.isna(value) or value is None`, else `str(value)`. -/
def safe_str (value : RawValue) : String :=
  if pd_isna value || value == RawValue.vNone then "Not available" else pyStr value

/-- `format_risk_flag` from `app.py`: `"Not assessed"` for
`None`/NaN, else `"HIGH RISK"`/`"LOW RISK"` by `normalize_flag`. -/
def format_risk_flag (flag : RawValue) : String :=
  if flag == RawValue.vNone || flag == RawValue.vNaN then "Not assessed"
  else if normalize_flag flag then "HIGH RISK" else "LOW RISK"

/-- A flat data record (pandas `Series` row): association list from
field name to scalar value. -/
abbrev Record : Type := List (String × RawValue)

/-- Model of `Series.get(key, default)`: the stored value when the key
is present (even if that value is null), else the default. -/
def pyGet (row : Record) (key : String) (dflt : RawValue) : RawValue :=
  match List.find? (fun p => p.1 == key) row with
  | some p => p.2
  | none => dflt

/-- Whether the record carries the field at all. -/
def hasField (row : Record) (key : String) : Bool :=
  (List.find? (fun p => p.1 == key) row).isSome

/-- A content block of the PDF story assembled by `generate_pdf`:
the branded header flowable, a spacer, a horizontal rule, a styled
paragraph (text and style name), or a table of string cells. -/
inductive Block where
  | headerGraphic
  | spacer (pts : ℕ)
  | hr
  | para (text style : String)
  | table (rows : List (List String))
deriving DecidableEq

/-- A display block of the Streamlit preview emitted by
`render_report_preview`: `st.subheader`, `st.caption`, `st.divider`,
a literal `st.markdown("### ...")` section heading, or any other
`st.markdown` call. -/
inductive PBlock where
  | subheader (text : String)
  | caption (text : String)
  | divider
  | mdHeading (text : String)
  | markdown (text : String)
deriving DecidableEq

/-- The value `generate_pdf` binds for a report field:
`safe_str(data_row.get(key, ''))`. -/
def pdf_field (row : Record) (key : String) : String :=
  safe_str (pyGet row key (.vStr ""))

/-- The value `render_report_preview` binds for a report field:
`safe_str(data_row.get(key, ''))` (the same expression, duplicated in
the source). -/
def preview_field (row : Record) (key : String) : String :=
  safe_str (pyGet row key (.vStr ""))

/-- `generate_pdf` from `app.py`, modelled up to document content: the
story (list of flowables) handed to `doc.build`, in source order.
`now` is the single wall-clock read
`datetime.now().strftime('%Y-%m-%d %H:%M')`, made explicit. -/
def generate_pdf_story (data_row : Record) (now : String) : List Block :=
  [ Block.headerGraphic,
    Block.spacer 12,
    Block.para "CLIENT BACKGROUND REPORT" "CustomTitle",
    Block.para "Based on Plunket AI Model Analysis" "CustomSubtitle",
    Block.hr,
    Block.para "CLIENT INFORMATION" "SectionHeader",
    Block.table
      [ ["Client Name:", pdf_field data_row "client_name",
         "Client NHI:", pdf_field data_row "client_nhi"],
        ["DHB:", pdf_field data_row "dhb",
         "Ethnicity:", pdf_field data_row "ethnicity"],
        ["Domicile:", pdf_field data_row "domicile",
         "Gender:", pdf_field data_row "gender"],
        ["Primary Caregiver:", pdf_field data_row "primary_caregiver",
         "Well Child Level of Need:", pdf_field data_row "well_child_level_of_need"],
        ["Generated:", now, "", ""] ],
    Block.spacer 12,
    Block.hr,
    Block.para "DISCUSSION TOPICS" "SectionHeader",
    Block.para ("&bull; <b>Housing:</b> " ++ pdf_field data_row "topic_tags_house") "CustomBody",
    Block.para ("&bull; <b>Impairment:</b> " ++ pdf_field data_row "topic_tags_impairment") "CustomBody",
    Block.para ("&bull; <b>Mental/Maternal Health:</b> " ++ pdf_field data_row "topic_tags_mmh") "CustomBody",
    Block.spacer 12,
    Block.hr,
    Block.para "SUMMARIES" "SectionHeader",
    Block.para "Housing Situation:" "SubSection",
    Block.para (pdf_field data_row "housing_summary") "CustomBody",
    Block.para "Impairment Status:" "SubSection",
    Block.para (pdf_field data_row "impairments_summary") "CustomBody",
    Block.para "Mental/Maternal Health:" "SubSection",
    Block.para (pdf_field data_row "mmh_summary") "CustomBody",
    Block.spacer 12,
    Block.hr,
    Block.para "RISK FLAGS" "SectionHeader",
    Block.para ("&bull; <b>Housing:</b> " ++ pdf_field data_row "housing_risk_flag") "CustomBody",
    Block.para ("&bull; <b>Impairment:</b> " ++ pdf_field data_row "impairment_risk_flag") "CustomBody",
    Block.para ("&bull; <b>MMH:</b> " ++ pdf_field data_row "mmh_risk_flag") "CustomBody",
    Block.spacer 20,
    Block.hr,
    Block.para "Generated by Plunket AI Model." "Footer" ]

/-- `render_report_preview` from `app.py`: the Streamlit blocks
emitted, in source order (column 1 of the client grid before
column 2). -/
def render_report_preview (data_row : Record) : List PBlock :=
  [ PBlock.subheader "Client Background Report",
    PBlock.caption "Based on Plunket AI Model Analysis",
    PBlock.divider,
    PBlock.mdHeading "CLIENT INFORMATION",
    PBlock.markdown ("**Client Name:** " ++ preview_field data_row "client_name"),
    PBlock.markdown ("**DHB:** " ++ preview_field data_row "dhb"),
    PBlock.markdown ("**Domicile:** " ++ preview_field data_row "domicile"),
    PBlock.markdown ("**Primary Caregiver:** " ++ preview_field data_row "primary_caregiver"),
    PBlock.markdown ("**Client NHI:** " ++ preview_field data_row "client_nhi"),
    PBlock.markdown ("**Ethnicity:** " ++ preview_field data_row "ethnicity"),
    PBlock.markdown ("**Gender:** " ++ preview_field data_row "gender"),
    PBlock.markdown ("**Well Child Level of Need:** " ++ preview_field data_row "well_child_level_of_need"),
    PBlock.divider,
    PBlock.mdHeading "DISCUSSION TOPICS",
    PBlock.markdown ("- **Housing:** " ++ preview_field data_row "topic_tags_house"),
    PBlock.markdown ("- **Impairment:** " ++ preview_field data_row "topic_tags_impairment"),
    PBlock.markdown ("- **Mental/Maternal Health:** " ++ preview_field data_row "topic_tags_mmh"),
    PBlock.divider,
    PBlock.mdHeading "SUMMARIES",
    PBlock.markdown "**Housing Situation:**",
    PBlock.markdown (preview_field data_row "housing_summary"),
    PBlock.markdown "**Impairment Status:**",
    PBlock.markdown (preview_field data_row "impairments_summary"),
    PBlock.markdown "**Mental/Maternal Health:**",
    PBlock.markdown (preview_field data_row "mmh_summary"),
    PBlock.divider,
    PBlock.mdHeading "RISK FLAGS",
    PBlock.markdown ("- **Housing:** " ++ preview_field data_row "housing_risk_flag"),
    PBlock.markdown ("- **Impairment:** " ++ preview_field data_row "impairment_risk_flag"),
    PBlock.markdown ("- **MMH:** " ++ preview_field data_row "mmh_risk_flag") ]

/-- The report sections named in the design document. -/
inductive SectionKind where
  | headerTitle
  | clientIdentity
  | riskAssessment
  | discussionTopics
  | summaries
  | footer
deriving DecidableEq

/-- Modelled from the spec: the section ordering of the table in §4.2
(Header/Title, Case/Client Identity, Risk Assessment, Discussion
Topics, Summaries, Footer), for comparison with the orders the code
actually produces. -/
def spec42Order : List SectionKind :=
  [.headerTitle, .clientIdentity, .riskAssessment, .discussionTopics, .summaries, .footer]

/-- Which section a PDF story block opens, judged by the style names
and literal header texts used at the `generate_pdf` call sites. -/
def blockSection (b : Block) : Option SectionKind :=
  match b with
  | .para t s =>
    if s = "CustomTitle" then some .headerTitle
    else if s = "Footer" then some .footer
    else if s = "SectionHeader" then
      if t = "CLIENT INFORMATION" then some .clientIdentity
      else if t = "DISCUSSION TOPICS" then some .discussionTopics
      else if t = "SUMMARIES" then some .summaries
      else if t = "RISK FLAGS" then some .riskAssessment
      else none
    else none
  | _ => none

/-- Which section a preview block opens, judged by the `st.subheader`
and literal `st.markdown("### ...")` call sites. -/
def pblockSection (b : PBlock) : Option SectionKind :=
  match b with
  | .subheader _ => some .headerTitle
  | .mdHeading t =>
    if t = "CLIENT INFORMATION" then some .clientIdentity
    else if t = "DISCUSSION TOPICS" then some .discussionTopics
    else if t = "SUMMARIES" then some .summaries
    else if t = "RISK FLAGS" then some .riskAssessment
    else none
  | _ => none

/-- The sequence of sections of the PDF story, in document order. -/
def pdf_section_order (row : Record) (now : String) : List SectionKind :=
  (generate_pdf_story row now).filterMap blockSection

/-- The sequence of sections of the preview, in display order. -/
def preview_section_order (row : Record) : List SectionKind :=
  (render_report_preview row).filterMap pblockSection

/-- The visible text carried by a PDF story block (paragraph text,
table cells joined). -/
def blockText : Block → String
  | .headerGraphic => ""
  | .spacer _ => ""
  | .hr => ""
  | .para t _ => t
  | .table rows => String.join (rows.map String.join)

/-- The visible text carried by a preview block. -/
def pblockText : PBlock → String
  | .subheader s => s
  | .caption s => s
  | .divider => ""
  | .mdHeading s => "### " ++ s
  | .markdown s => s

/-- Whether `pat` is a prefix of `hay` (character lists). -/
def charsPrefix : List Char → List Char → Bool
  | [], _ => true
  | _ :: _, [] => false
  | a :: as, b :: bs => a == b && charsPrefix as bs

/-- Whether `pat` occurs as a contiguous sublist of `hay`. -/
def charsSub (pat : List Char) : List Char → Bool
  | [] => charsPrefix pat []
  | c :: rest => charsPrefix pat (c :: rest) || charsSub pat rest

/-- Whether the string `pat` occurs as a substring of `hay`. -/
def containsSub (hay pat : String) : Bool :=
  charsSub pat.data hay.data

/-- Whether any block of the PDF story for `row` shows text containing
`s`. -/
def pdf_mentions (row : Record) (now s : String) : Bool :=
  (generate_pdf_story row now).any (fun b => containsSub (blockText b) s)

/-- Whether any block of the preview for `row` shows text containing
`s`. -/
def preview_mentions (row : Record) (s : String) : Bool :=
  (render_report_preview row).any (fun b => containsSub (pblockText b) s)

/-- The number of the three flags that normalize to `True`. -/
def trueFlagCount (h i m : RawValue) : ℕ :=
  (normalize_flag h).toNat + (normalize_flag i).toNat + (normalize_flag m).toNat

/-- The risk level determined by a count of true flags alone:
0 low, 1 moderate, 2 or more high. -/
def riskOfCount : ℕ → String
  | 0 => "LOW RISK"
  | 1 => "MODERATE RISK"
  | _ + 2 => "HIGH RISK"

/-- Replace the wall-clock cell of the client-information table by a
fixed placeholder, leaving every other cell and block unchanged. -/
def scrub_generated : Block → Block
  | .table rows =>
    .table (rows.map (fun r =>
      if r.head? == some "Generated:" then ["Generated:", "<timestamp>", "", ""] else r))
  | b => b

/-- The PDF story with its generation-timestamp cell neutralized. -/
def erase_generated (story : List Block) : List Block :=
  story.map scrub_generated

/-- The scenario record of §8: Jane Doe with housing and
mental/maternal-health flags raised. -/
def janeDoe : Record :=
  [ ("client_name", .vStr "Jane Doe"),
    ("housing_risk_flag", .vBool true),
    ("impairment_risk_flag", .vBool false),
    ("mmh_risk_flag", .vBool true),
    ("createdon", .vDate 2024 3 1) ]

/-- The scenario record of §8 with `housing_risk_flag` missing and the
other two flags `False`. -/
def missingHousingRow : Record :=
  [ ("impairment_risk_flag", .vBool false),
    ("mmh_risk_flag", .vBool false) ]

/-- A fixed injected generation timestamp for the concrete scenarios. -/
def sampleNow : String := "2024-03-01 12:00"

/-- Helper: the if-chain of `get_risk_level` agrees with the pure
count-based classification, for all boolean flag triples. -/
theorem risk_if_eq_riskOfCount (a b c : Bool) :
    (if a.toNat + b.toNat + c.toNat ≥ 2 then "HIGH RISK"
     else if a.toNat + b.toNat + c.toNat = 1 then "MODERATE RISK" else "LOW RISK")
      = riskOfCount (a.toNat + b.toNat + c.toNat) := by
  cases a <;> cases b <;> cases c <;> rfl

/-- Helper: for every record and timestamp, the PDF story consists of
exactly the sections Header/Title, Client Information, Discussion
Topics, Summaries, Risk Flags, Footer, in that order. -/
theorem pdf_sections_fixed (row : Record) (now : String) :
    pdf_section_order row now =
      [.headerTitle, .clientIdentity, .discussionTopics, .summaries, .riskAssessment, .footer] :=
  rfl

/-- Helper: for every record, the preview consists of exactly the
sections Header/Title, Client Information, Discussion Topics,
Summaries, Risk Flags, in that order (no footer). -/
theorem preview_sections_fixed (row : Record) :
    preview_section_order row =
      [.headerTitle, .clientIdentity, .discussionTopics, .summaries, .riskAssessment] :=
  rfl

/-- Helper: `Series.get` returns the supplied default when the field
is absent from the record. -/
theorem pyGet_missing (row : Record) (key : String) (d : RawValue)
    (h : hasField row key = false) : pyGet row key d = d := by
  unfold pyGet
  cases hf : List.find? (fun p => p.1 == key) row with
  | none => rfl
  | some p => simp [hasField, hf] at h

/-- C1, counterexample: for the Jane Doe record (two true flags), the
derived risk level is indeed "HIGH RISK", but neither the PDF story
nor the preview contains the text "HIGH RISK" anywhere: the renderers
print the raw flag values and never call `get_risk_level`. -/
theorem c1_counterexample :
    get_risk_level (.vBool true) (.vBool false) (.vBool true) = "HIGH RISK" ∧
    pdf_mentions janeDoe sampleNow "HIGH RISK" = false ∧
    preview_mentions janeDoe "HIGH RISK" = false :=
  ⟨rfl, rfl, rfl⟩

/-- C1, amended: for the Jane Doe record the derived risk level is
"HIGH RISK", and both renderings show the raw flag values "True",
"False", "True" in their Risk Flags sections instead of the risk
level, which appears nowhere. -/
theorem c1_amended :
    get_risk_level (.vBool true) (.vBool false) (.vBool true) = "HIGH RISK" ∧
    Block.para "&bull; <b>Housing:</b> True" "CustomBody" ∈ generate_pdf_story janeDoe sampleNow ∧
    Block.para "&bull; <b>Impairment:</b> False" "CustomBody" ∈ generate_pdf_story janeDoe sampleNow ∧
    Block.para "&bull; <b>MMH:</b> True" "CustomBody" ∈ generate_pdf_story janeDoe sampleNow ∧
    PBlock.markdown "- **Housing:** True" ∈ render_report_preview janeDoe ∧
    PBlock.markdown "- **Impairment:** False" ∈ render_report_preview janeDoe ∧
    PBlock.markdown "- **MMH:** True" ∈ render_report_preview janeDoe ∧
    pdf_mentions janeDoe sampleNow "HIGH RISK" = false ∧
    preview_mentions janeDoe "HIGH RISK" = false := by
  refine ⟨rfl, ?_, ?_, ?_, ?_, ?_, ?_, rfl, rfl⟩ <;> decide

/-- C2, counterexample: in the record with `client_name` absent, the
rendered client-name field is the empty string, and the text
"Not available" appears nowhere in either rendering (absent fields
resolve to the `.get` default `''`, not to the placeholder). -/
theorem c2_counterexample :
    PBlock.markdown "**Client Name:** " ∈ render_report_preview ([] : Record) ∧
    preview_mentions ([] : Record) "Not available" = false ∧
    pdf_mentions ([] : Record) sampleNow "Not available" = false := by
  refine ⟨?_, rfl, rfl⟩
  decide

/-- C2, amended: a field present with a null/NaN value renders as
"Not available"; a field absent from the record renders as the empty
string (the `''` default of `Series.get`); in every case rendering is
total and every section of both renderings is present. -/
theorem c2_amended (row : Record) (key now : String) :
    (pyGet row key (.vStr "") = .vNone →
      safe_str (pyGet row key (.vStr "")) = "Not available") ∧
    (pyGet row key (.vStr "") = .vNaN →
      safe_str (pyGet row key (.vStr "")) = "Not available") ∧
    (hasField row key = false → safe_str (pyGet row key (.vStr "")) = "") ∧
    pdf_section_order row now =
      [.headerTitle, .clientIdentity, .discussionTopics, .summaries, .riskAssessment, .footer] ∧
    preview_section_order row =
      [.headerTitle, .clientIdentity, .discussionTopics, .summaries, .riskAssessment] := by
  refine ⟨fun h => by rw [h]; rfl, fun h => by rw [h]; rfl, fun h => ?_,
    pdf_sections_fixed row now, preview_sections_fixed row⟩
  rw [pyGet_missing row key _ h]
  rfl

/-- C2, witness for the amended theorem at concrete records. -/
theorem c2_amended_witness :
    safe_str (pyGet [("dhb", RawValue.vNone)] "dhb" (.vStr "")) = "Not available" ∧
    safe_str (pyGet [("gender", RawValue.vNaN)] "gender" (.vStr "")) = "Not available" ∧
    safe_str (pyGet missingHousingRow "housing_risk_flag" (.vStr "")) = "" :=
  ⟨(c2_amended [("dhb", RawValue.vNone)] "dhb" sampleNow).1 rfl,
   (c2_amended [("gender", RawValue.vNaN)] "gender" sampleNow).2.1 rfl,
   (c2_amended missingHousingRow "housing_risk_flag" sampleNow).2.2.1 rfl⟩

/-- C3, counterexample: at the empty record, the section order shared
by the renderings is not the order of the §4.2 table (Risk Assessment
comes after Summaries, not before Discussion Topics), and the preview
does not even have the same sections as the PDF (it lacks the
footer). -/
theorem c3_counterexample :
    pdf_section_order ([] : Record) sampleNow ≠ spec42Order ∧
    preview_section_order ([] : Record) ≠ pdf_section_order ([] : Record) sampleNow := by
  constructor <;> decide

/-- C3, amended: for every record, both renderings present the
sections Header/Title, Client Information, Discussion Topics,
Summaries, Risk Flags in that same order (which differs from §4.2 by
placing Risk Flags last), the PDF additionally ends with the Footer
section that the preview lacks, and for every field key both
renderings display the identical derived value. -/
theorem c3_amended (row : Record) (now key : String) :
    pdf_section_order row now =
      [.headerTitle, .clientIdentity, .discussionTopics, .summaries, .riskAssessment, .footer] ∧
    preview_section_order row =
      [.headerTitle, .clientIdentity, .discussionTopics, .summaries, .riskAssessment] ∧
    pdf_field row key = preview_field row key :=
  ⟨pdf_sections_fixed row now, preview_sections_fixed row, rfl⟩

/-- C4: for every triple of raw flag values, `get_risk_level` returns
the level determined solely by the count of flags normalizing to
true: 0 low, 1 moderate, 2 or 3 high. -/
theorem c4_risk_from_count (h i m : RawValue) :
    get_risk_level h i m = riskOfCount (trueFlagCount h i m) :=
  risk_if_eq_riskOfCount (normalize_flag h) (normalize_flag i) (normalize_flag m)

/-- C5: for integer and float input the normalized flag is exactly
the truth of the value being nonzero, and null and NaN input map to
the `False` fallback (the function is total, so it never raises). -/
theorem c5_numeric_flag_semantics (n : ℤ) (q : ℚ) :
    (normalize_flag (.vInt n) = true ↔ n ≠ 0) ∧
    (normalize_flag (.vFloat q) = true ↔ q ≠ 0) ∧
    normalize_flag .vNone = false ∧
    normalize_flag .vNaN = false := by
  refine ⟨?_, ?_, rfl, rfl⟩ <;> simp [normalize_flag]

/-- C6: `safe_str` maps null and NaN (and only `pd.isna` inputs) to
exactly "Not available", maps a date to its `YYYY-MM-DD` rendering,
and maps every other value to its natural Python string conversion. -/
theorem c6_safe_str_contract (v : RawValue) (y m d : ℕ) :
    safe_str .vNone = "Not available" ∧
    safe_str .vNaN = "Not available" ∧
    (pd_isna v = true → safe_str v = "Not available") ∧
    safe_str (.vDate y m d) = isoDate y m d ∧
    (pd_isna v = false → safe_str v = pyStr v) := by
  refine ⟨rfl, rfl, fun h => by simp [safe_str, h], rfl, fun h => ?_⟩
  cases v <;> simp_all [safe_str, pd_isna]

/-- C6, witness at a concrete non-null value. -/
theorem c6_safe_str_contract_witness :
    pd_isna (RawValue.vStr "example value") = false ∧
    safe_str (RawValue.vStr "example value") = pyStr (RawValue.vStr "example value") :=
  ⟨rfl, (c6_safe_str_contract (RawValue.vStr "example value") 0 0 0).2.2.2.2 rfl⟩

/-- C7, counterexample: for the record with `housing_risk_flag`
missing and the other flags false, the aggregate level is indeed
"LOW RISK", but the rendered per-category housing display is the raw
(empty) value and the text "Not assessed" appears nowhere in either
rendering: the renderers never call `format_risk_flag`. -/
theorem c7_counterexample :
    get_risk_level (pyGet missingHousingRow "housing_risk_flag" (.vStr ""))
        (pyGet missingHousingRow "impairment_risk_flag" (.vStr ""))
        (pyGet missingHousingRow "mmh_risk_flag" (.vStr "")) = "LOW RISK" ∧
    pdf_mentions missingHousingRow sampleNow "Not assessed" = false ∧
    preview_mentions missingHousingRow "Not assessed" = false ∧
    Block.para "&bull; <b>Housing:</b> " "CustomBody" ∈ generate_pdf_story missingHousingRow sampleNow := by
  refine ⟨rfl, rfl, rfl, ?_⟩
  decide

/-- C7, amended: a missing housing flag is treated as not-risky by
the aggregation (level "LOW RISK" whether the miss arrives as None or
as the `''` get-default), and `format_risk_flag` would render it as
"Not assessed"; but the renderings of this variant display the raw
flag value instead, so the housing line shows the empty string. -/
theorem c7_amended :
    get_risk_level .vNone (.vBool false) (.vBool false) = "LOW RISK" ∧
    get_risk_level (.vStr "") (.vBool false) (.vBool false) = "LOW RISK" ∧
    format_risk_flag .vNone = "Not assessed" ∧
    format_risk_flag .vNaN = "Not assessed" ∧
    Block.para "&bull; <b>Housing:</b> " "CustomBody" ∈ generate_pdf_story missingHousingRow sampleNow ∧
    PBlock.markdown "- **Housing:** " ∈ render_report_preview missingHousingRow := by
  refine ⟨rfl, rfl, rfl, rfl, ?_, ?_⟩ <;> decide

/-- C8: `safe_str` is idempotent: feeding its result back in (as the
string it already is) returns the result unchanged, for every input
value including null, NaN, and dates. -/
theorem c8_safe_str_idempotent (v : RawValue) :
    safe_str (.vStr (safe_str v)) = safe_str v := by
  cases v <;> rfl

/-- C9: rendering is deterministic up to the clock: with the same
injected timestamp the PDF story is identical; the preview is a
function of the record alone (it displays no timestamp); and two PDF
stories for the same record differ at most in the Generated cell,
so the clock read is the only source of variation. -/
theorem c9_render_determinism (row : Record) (t1 t2 : String) :
    (t1 = t2 → generate_pdf_story row t1 = generate_pdf_story row t2) ∧
    erase_generated (generate_pdf_story row t1) = erase_generated (generate_pdf_story row t2) ∧
    render_report_preview row = render_report_preview row :=
  ⟨fun h => by rw [h], rfl, rfl⟩

/-- C9, witness at a concrete record and timestamp. -/
theorem c9_render_determinism_witness :
    sampleNow = sampleNow ∧
    generate_pdf_story janeDoe sampleNow = generate_pdf_story janeDoe sampleNow :=
  ⟨rfl, (c9_render_determinism janeDoe sampleNow sampleNow).1 rfl⟩

/-- C10: `safe_str` maps the empty string to the empty string, and
more generally every string to itself, so a field absent from the
record (resolved to the `''` get-default) renders as blank rather
than as the "Not available" placeholder. -/
theorem c10_empty_string (s : String) (row : Record) (key : String) :
    safe_str (.vStr "") = "" ∧
    safe_str (.vStr s) = s ∧
    (hasField row key = false →
      pyGet row key (.vStr "") = .vStr "" ∧ safe_str (pyGet row key (.vStr "")) = "") := by
  refine ⟨rfl, rfl, fun h => ?_⟩
  have hg := pyGet_missing row key (.vStr "") h
  exact ⟨hg, by rw [hg]; rfl⟩

/-- C10, witness: the record lacking `housing_risk_flag` renders that
field as the empty string. -/
theorem c10_empty_string_witness :
    hasField missingHousingRow "housing_risk_flag" = false ∧
    safe_str (pyGet missingHousingRow "housing_risk_flag" (.vStr "")) = "" :=
  ⟨rfl, ((c10_empty_string "" missingHousingRow "housing_risk_flag").2.2 rfl).2⟩
